import Mathlib

/-!
Verification development for the Linpama package-manager engine
(`src/usr/share/linexin/widgets/y-package-manager.py`).

The Python source is shallowly embedded: each method that the claims
touch becomes a Lean function over an explicit state / environment, with
process spawns, signals, file writes and log appends reified as effect
values.  Python exceptions that the source catches are modelled with
`Option`, and Python truthiness is made explicit where the source relies
on it.
-/

namespace Linpama

/-- The application name constant (`APP_NAME = "linpama"` in the source). -/
def APP_NAME : String := "linpama"

/-! Python string primitives.  Strings are modelled as their character
sequences (`String.data`), and the handful of Python operations the
source uses — prefix test, membership test, `split` on one separator
character, `strip`, `lower` — are given structural definitions so that
they evaluate inside proofs. -/

/-- Membership of `sub` in a character list, mirroring the Python test
`sub in s`: `sub` is a prefix of some suffix. -/
def containsList (sub : List Char) : List Char → Bool
  | [] => sub.isEmpty
  | x :: rest => sub.isPrefixOf (x :: rest) || containsList sub rest

/-- The Python membership test `sub in s`. -/
def pyContains (s sub : String) : Bool := containsList sub.data s.data

/-- The Python prefix test `s.startswith(pre)`. -/
def pyStartsWith (s pre : String) : Bool := pre.data.isPrefixOf s.data

/-- Splitting a character list at every occurrence of the separator
character, keeping empty pieces, as Python `split` with an explicit
one-character separator does. -/
def splitChar (c : Char) : List Char → List (List Char)
  | [] => [[]]
  | x :: xs =>
    let r := splitChar c xs
    if x == c then [] :: r
    else
      match r with
      | t :: ts => (x :: t) :: ts
      | [] => [[x]]

/-- The Python split `s.split(c)` for a one-character separator. -/
def pySplitChar (c : Char) (s : String) : List String :=
  (splitChar c s.data).map fun l => ⟨l⟩

/-- The whitespace characters Python `strip()` removes. -/
def isPySpace (c : Char) : Bool :=
  c == ' ' || c == '\t' || c == '\n' || c == '\r' || c == '\x0b' || c == '\x0c'

/-- The Python strip `s.strip()`: whitespace removed from both ends. -/
def pyStrip (s : String) : String :=
  ⟨((s.data.dropWhile isPySpace).reverse.dropWhile isPySpace).reverse⟩

/-- The Python lowercasing `s.lower()` (over the ASCII range the AUR
names and queries live in). -/
def pyLower (s : String) : String := ⟨s.data.map Char.toLower⟩

/-! Local-index parser (`perform_search`, lines 553–577).

Output of `pacman -Ss` is parsed line by line inside one `try` block:
a non-indented line starts a new record (flushing the previous one), an
indented line overwrites the description of the current record.  The
subscript `parts[1]` raises `IndexError` when the header has no second
field, and the tuple unpacking of `full_name.split("/")` raises
`ValueError` when the name contains more than one slash; either
exception aborts the loop, is caught by the surrounding `except`, and
the results appended so far survive (the Python list `results` is
mutated in place). -/

/-- One parsed package record (the dict built at lines 568–573). -/
structure PkgRec where
  name : String
  repo : String
  version : String
  installed : Bool
  desc : String
  is_aur : Bool
deriving Repr, DecidableEq

/-- Parse a non-indented header line (`repo/name version [installed]`,
lines 561–573).  `none` models the uncaught-within-the-loop exception:
`parts[1]` missing (`IndexError`) or a `full_name` with two or more
slashes (`ValueError` from tuple unpacking). -/
def parseHeader (line : String) : Option PkgRec :=
  match pySplitChar ' ' line with
  | full_name :: version :: _ =>
    match pySplitChar '/' full_name with
    | [name] =>
      some { name := name, repo := "local", version := version,
             installed := pyContains line "[installed]", desc := "", is_aur := false }
    | [repo, name] =>
      some { name := name, repo := repo, version := version,
             installed := pyContains line "[installed]", desc := "", is_aur := false }
    | _ => none
  | _ => none

/-- The parsing loop (lines 557–577).  `acc` is the `results` list,
`cur` the `current_pkg` variable.  A header exception returns the
results accumulated so far — the record pending in `cur` has already
been flushed by the append of `current_pkg` that precedes `parts[1]`
in the source — and drops every later line.  At end of input the
pending record is flushed (line 577). -/
def parseLinesAux : List String → List PkgRec → Option PkgRec → List PkgRec
  | [], acc, cur => acc ++ cur.toList
  | l :: ls, acc, cur =>
    if pyStartsWith l "    " then
      match cur with
      | some p => parseLinesAux ls acc (some { p with desc := pyStrip l })
      | none => parseLinesAux ls acc none
    else
      match parseHeader l with
      | none => acc ++ cur.toList
      | some p => parseLinesAux ls (acc ++ cur.toList) (some p)

/-- Parse a list of output lines, as the loop at line 557 does. -/
def parsePacmanLines (lines : List String) : List PkgRec :=
  parseLinesAux lines [] none

/-- Parse raw `pacman -Ss` stdout: the source strips the whole text and
splits it on newlines (line 554), guarded by `returncode == 0 and
process.stdout` (line 553, Python truthiness of the stdout string). -/
def parsePacmanOutput (returncode : Int) (stdout : String) : List PkgRec :=
  if returncode == 0 && stdout != "" then
    parsePacmanLines (pySplitChar '\n' (pyStrip stdout))
  else
    []

/-! Credential store and privilege-escalation bridge
(`setup_sudo_env`, lines 808–815, and `execute_shell`, lines 847–872). -/

/-- Path of the askpass helper (`self.askpass_script`, line 67). -/
def askpass_script : String := "/tmp/" ++ APP_NAME ++ "-askpass.sh"

/-- Path of the sudo wrapper (`self.sudo_wrapper`, line 68). -/
def sudo_wrapper : String := "/tmp/" ++ APP_NAME ++ "-sudo.sh"

/-- The Python uppercasing `s.upper()`. -/
def pyUpper (s : String) : String := ⟨s.data.map Char.toUpper⟩

/-- The Python replacement `s.replace(a, b)` for one-character
arguments. -/
def pyReplaceChar (a b : Char) (s : String) : String :=
  ⟨s.data.map fun c => if c == a then b else c⟩

/-- Name of the environment variable carrying the credential:
the uppercased app name with dashes turned into underscores, suffixed
with `_SUDO_PW` (lines 810, 852). -/
def sudoEnvVarName : String := pyReplaceChar '-' '_' (pyUpper APP_NAME) ++ "_SUDO_PW"

/-- Content written into the askpass helper (line 810): a shell script
that echoes the environment variable, never a literal credential. -/
def askpass_content : String := "#!/bin/sh\necho \"$" ++ sudoEnvVarName ++ "\"\n"

/-- Content written into the sudo wrapper (line 814). -/
def sudo_wrapper_content : String :=
  "#!/bin/sh\nexport SUDO_ASKPASS='" ++ askpass_script ++ "'\nexec sudo -A \"$@\"\n"

/-- A file creation performed by `setup_sudo_env`: path, text content,
and the permission bits passed to `os.chmod`. -/
structure FileWrite where
  path : String
  content : String
  mode : Nat
deriving Repr, DecidableEq

/-- `setup_sudo_env` (lines 808–815): writes the askpass helper and the
sudo wrapper, each followed by `os.chmod(..., 0o700)`.  The method reads
nothing from the session besides the two constant paths — in particular
it never reads `self.user_password`, which is passed here only to state
that the written files are independent of it. -/
def setup_sudo_env (user_password : Option String) : List FileWrite :=
  let _ := user_password
  [ { path := askpass_script, content := askpass_content, mode := 0o700 },
    { path := sudo_wrapper, content := sudo_wrapper_content, mode := 0o700 } ]

/-- Python truthiness of `self.user_password` (`if self.user_password:`
and `if not self.user_password:` in the source): `None` and the empty
string are falsy. -/
def pwTruthy : Option String → Bool
  | some p => p != ""
  | none => false

/-- Dictionary-style update used for `env[env_var_name] = ...`
(line 853): replaces any existing binding of the key. -/
def envSet (base : List (String × String)) (k v : String) : List (String × String) :=
  (base.filter fun kv => kv.1 != k) ++ [(k, v)]

/-- The environment handed to the child process by `execute_shell`
(lines 850–853): a copy of the process environment, with the credential
added under `sudoEnvVarName` when `self.user_password` is truthy. -/
def execute_shell_env (base : List (String × String)) (user_password : Option String) :
    List (String × String) :=
  match user_password with
  | some p => if p != "" then envSet base sudoEnvVarName p else base
  | none => base

/-- What happened to the child process spawned by `execute_shell`:
either it started and ran to completion with an exit code (and the list
of lines read from its combined output), or some step raised — spawn
failure or a read error — after the given lines had been read.  The
interrupt sent on cancellation does not appear here: it only shows up
as a nonzero exit code of the child. -/
inductive ProcOutcome where
  | completed (exitCode : Int) (outLines : List String)
  | raised (outLines : List String) (msg : String)
deriving Repr, DecidableEq

/-- `execute_shell` (lines 847–872): streams every output line to the
log, then computes `success = (rc == 0)`; any exception appends an
error line and forces `success = False`.  Returns the appended log
lines and the `success` flag handed to `on_process_finished`. -/
def execute_shell (outcome : ProcOutcome) : List String × Bool :=
  match outcome with
  | .completed rc ls => (ls, rc == 0)
  | .raised ls msg => (ls ++ ["\nError: " ++ msg], false)

/-! Transaction supervisor (`initiate_install` lines 682–692,
`initiate_remove` lines 694–699, `run_transaction` lines 817–841,
`on_cancel_clicked` lines 403–409, `on_process_finished` lines
879–911). -/

/-- Signals the supervisor can send. -/
inductive Signal where
  | sigint
  | sigterm
  | sigkill
deriving Repr, DecidableEq

/-- Target of a signal: the single child process (what
`Popen.send_signal` addresses) or its whole process group. -/
inductive SigTarget where
  | toProcess
  | toGroup
deriving Repr, DecidableEq

/-- Externally visible actions of the supervisor methods. -/
inductive Effect where
  | appendLog (text : String)
  | writeFile (path content : String) (mode : Nat)
  | spawnShell (cmd : String)
  | showPrompt
  | mkTempDir
  | spawnClone (cmd : String)
  | rmTempDir
  | sendSignal (sig : Signal) (tgt : SigTarget)
deriving Repr, DecidableEq

/-- The mutable session fields of the widget that the transaction
methods read and write. -/
structure SupState where
  user_password : Option String
  process_in_progress : Bool
  current_process : Option Nat
  action_type : String
deriving Repr, DecidableEq

/-- Number of child processes a list of effects starts. -/
def spawnCount (effs : List Effect) : Nat :=
  (effs.filter fun e =>
    match e with
    | .spawnShell _ => true
    | .spawnClone _ => true
    | _ => false).length

/-- The shell command built by `run_transaction` (lines 832–839). -/
def pacman_cmd (action_type package_name : String) : String :=
  if action_type == "remove" then
    sudo_wrapper ++ " pacman -Rns --noconfirm " ++ package_name
  else
    sudo_wrapper ++ " pacman -S --noconfirm --needed " ++ package_name

/-- `run_transaction` (lines 817–841): writes the helper scripts, sets
`process_in_progress`, and starts a worker thread that runs
`execute_shell`, which spawns the child process.  There is no check of
`process_in_progress` before spawning — the method runs the same way
whether or not a transaction is already active. -/
def run_transaction (st : SupState) (package_name : String) : SupState × List Effect :=
  let writes := (setup_sudo_env st.user_password).map fun w =>
    Effect.writeFile w.path w.content w.mode
  ({ st with process_in_progress := true },
   writes ++ [Effect.spawnShell (pacman_cmd st.action_type package_name)])

/-- The git-clone command of `start_aur_review_process` (line 715). -/
def aur_clone_cmd (package_name temp_dir : String) : String :=
  "git clone https://aur.archlinux.org/" ++ package_name ++ ".git " ++ temp_dir

/-- `initiate_install` (lines 682–692): AUR packages go to the review
pipeline (a fresh temp dir plus a clone child process); otherwise the
transaction runs at once when a credential is cached, and the password
prompt is shown when not.  No branch consults `process_in_progress`. -/
def initiate_install (st : SupState) (pkg : PkgRec) (temp_dir : String) :
    SupState × List Effect :=
  let st1 := { st with action_type := "install" }
  if pkg.is_aur then
    (st1, [Effect.mkTempDir, Effect.spawnClone (aur_clone_cmd pkg.name temp_dir)])
  else
    if pwTruthy st1.user_password then
      run_transaction st1 pkg.name
    else
      (st1, [Effect.showPrompt])

/-- `initiate_remove` (lines 694–699): like the non-AUR install branch,
with `action_type = "remove"`.  No branch consults
`process_in_progress`. -/
def initiate_remove (st : SupState) (package_name : String) : SupState × List Effect :=
  let st1 := { st with action_type := "remove" }
  if pwTruthy st1.user_password then
    run_transaction st1 package_name
  else
    (st1, [Effect.showPrompt])

/-- The log line appended when cancellation is requested (line 405). -/
def cancelLogText : String := "\n--- Cancelling operation... ---\n"

/-- A session in which a transaction is already running: a cached
credential, `process_in_progress` set, and a live child handle. -/
def runningState : SupState :=
  { user_password := some "hunter2", process_in_progress := true,
    current_process := some 1, action_type := "install" }

/-- A concrete non-AUR package record. -/
def pkgW : PkgRec :=
  { name := "vim", repo := "extra", version := "9.1-1", installed := false,
    desc := "", is_aur := false }

/-- `on_cancel_clicked` (lines 403–409): when a child process handle
exists, append the cancellation note and call
`self.current_process.send_signal(signal.SIGINT)` — a signal to that
single process; nothing addresses the process group, and no other
signal is ever sent. -/
def on_cancel_clicked (current_process : Option Nat) : List Effect :=
  match current_process with
  | some _ => [Effect.appendLog cancelLogText, Effect.sendSignal .sigint .toProcess]
  | none => []

/-! Search aggregator (`on_search_changed` lines 514–528,
`perform_search` lines 543–605).  Each invocation of `perform_search`
carries the `search_id` it was issued with and compares it against the
shared `self.search_counter` at four checkpoints: on entry (line 544),
after the local subprocess returns (line 551), after the remote
response is decoded (line 587, only reached when the AUR box is checked
and the request did not raise), and just before publishing (line 603).
A mismatch at any reached checkpoint returns without publishing.  The
`SearchEnv` record supplies the counter value the thread observes at
each checkpoint, plus the outcomes of the two lookups; `none` stands
for an exception the source catches. -/

/-- One record of the AUR RPC result list, with the mandatory fields
`Name` and `Version` present and `Description` possibly absent. -/
structure RemoteItem where
  itemName : String
  itemVersion : String
  itemDescription : Option String
deriving Repr, DecidableEq

/-- The decoded AUR RPC response: the `type` field (absent key decodes
to `none`, as `data.get("type")` yields `None`) and the `results`
list. -/
structure AurData where
  dtype : Option String
  dresults : List RemoteItem
deriving Repr, DecidableEq

/-- What the searching thread observes: counter values at the four
checkpoints and the outcomes of the two lookups. -/
structure SearchEnv where
  cPre : Nat
  localOut : Option (Int × String)
  cPostLocal : Nat
  aurEnabled : Bool
  remote : Option AurData
  cPostRemote : Nat
  cPublish : Nat
deriving Repr, DecidableEq

/-- The AUR filter-and-convert loop (lines 589–599): keep items whose
lowercased name contains the lowercased query, tag them as AUR.  The
guard mirrors `data.get("type") != "error" and data.get("results")`
(an empty results list is falsy). -/
def aurFilterMap (query : String) (data : AurData) : List PkgRec :=
  if data.dtype != some "error" && data.dresults != [] then
    (data.dresults.filter fun item =>
        pyContains (pyLower item.itemName) (pyLower query)).map fun item =>
      { name := item.itemName, repo := "AUR", version := item.itemVersion,
        installed := false, desc := item.itemDescription.getD "", is_aur := true }
  else
    []

/-- `perform_search` (lines 543–605), returning `some results` exactly
when the thread reaches line 605 and publishes, `none` when any reached
staleness checkpoint fails.  An exception in the local lookup skips the
line-551 checkpoint and leaves `results` empty; an exception in the
remote lookup skips the line-587 checkpoint and leaves `results`
unchanged. -/
def perform_search (search_id : Nat) (query : String) (env : SearchEnv) :
    Option (List PkgRec) :=
  if search_id != env.cPre then none
  else
    let step1 : Option (List PkgRec) :=
      match env.localOut with
      | none => some []
      | some (rc, out) =>
        if search_id != env.cPostLocal then none
        else some (parsePacmanOutput rc out)
    match step1 with
    | none => none
    | some results =>
      let step2 : Option (List PkgRec) :=
        if env.aurEnabled then
          match env.remote with
          | none => some results
          | some data =>
            if search_id != env.cPostRemote then none
            else some (results ++ aurFilterMap query data)
        else some results
      match step2 with
      | none => none
      | some results2 =>
        if search_id == env.cPublish then some results2 else none

/-- Issuing a request id (`on_search_changed`, lines 520–521): the
counter is incremented and the new value becomes the id of this
invocation, so ids are issued strictly increasing and the counter
always equals the latest issued id. -/
def on_search_changed_issue (search_counter : Nat) : Nat × Nat :=
  (search_counter + 1, search_counter + 1)

/-- A concrete publishing search environment: every checkpoint observes
counter value 5 and both lookups return. -/
def searchEnvW : SearchEnv :=
  { cPre := 5, localOut := some (0, "core/sed 4.9-1"), cPostLocal := 5,
    aurEnabled := true,
    remote := some { dtype := some "search",
                     dresults := [{ itemName := "sed-utils", itemVersion := "1.0",
                                    itemDescription := none }] },
    cPostRemote := 5, cPublish := 5 }

/-! Credential store (`prompt_for_password` lines 775–806 together with
the non-AUR branches of `initiate_install` and `initiate_remove`). -/

/-- The credential-relevant session fields: the cached password and
whether a password dialog is currently open. -/
structure CredState where
  user_password : Option String
  pending : Bool
deriving Repr, DecidableEq

/-- Events driving the credential flow: a privileged intent is
submitted, or the open dialog is answered. -/
inductive CredEvent where
  | initiate
  | respUnlock (pwd : String)
  | respCancel
deriving Repr, DecidableEq

/-- Observable actions of the credential flow. -/
inductive CredAct where
  | promptShown
  | ranTransaction (pwd : String)
deriving Repr, DecidableEq

/-- One step of the credential flow.  `initiate` prompts exactly when
the cached password is falsy (`if not self.user_password:`) and
otherwise runs the transaction with the cached value; the dialog
response handler (lines 796–802) caches and runs only on an `unlock`
response with a nonempty entry, and on cancel — or an empty entry —
caches nothing and runs nothing, merely closing the dialog. -/
def cred_step (st : CredState) (ev : CredEvent) : CredState × List CredAct :=
  match ev with
  | .initiate =>
    if pwTruthy st.user_password then
      (st, [.ranTransaction (st.user_password.getD "")])
    else
      ({ st with pending := true }, [.promptShown])
  | .respUnlock pwd =>
    if st.pending then
      if pwd != "" then
        ({ user_password := some pwd, pending := false }, [.ranTransaction pwd])
      else
        ({ st with pending := false }, [])
    else (st, [])
  | .respCancel =>
    if st.pending then ({ st with pending := false }, []) else (st, [])

/-- Run the credential flow over a list of events, collecting actions. -/
def cred_run : CredState → List CredEvent → CredState × List CredAct
  | st, [] => (st, [])
  | st, ev :: evs =>
    let s1 := cred_step st ev
    let s2 := cred_run s1.1 evs
    (s2.1, s1.2 ++ s2.2)

/-! AUR build pipeline (`start_aur_review_process` lines 701–733,
`show_pkgbuild_content` / `show_aur_error` lines 735–743,
`on_pkgbuild_cancel` lines 745–748, `run_aur_build` lines 756–773,
`on_process_finished` lines 879–911).  The model tracks whether the
temporary clone directory made by `tempfile.mkdtemp` is still on
disk across the pipeline stages. -/

/-- The view names the pipeline switches between. -/
inductive ViewName where
  | search_view
  | pkgbuild_view
  | progress_view
  | info_view
deriving Repr, DecidableEq

/-- Pipeline-relevant state: whether the cloned temp directory exists
on disk, and the currently visible view. -/
structure AurState where
  dirOnDisk : Bool
  view : ViewName
deriving Repr, DecidableEq

/-- Events the pipeline reacts to after the clone was started. -/
inductive AurEvent where
  | cloneFinished (returncode : Int) (pkgbuildExists : Bool) (content : String)
  | cloneRaised (msg : String)
  | reviewCancel
  | reviewProceed (temp_dir pkg_name : String)
  | buildFinished (success : Bool)
deriving Repr, DecidableEq

/-- The makepkg command of `run_aur_build` (line 771). -/
def aur_build_cmd (temp_dir : String) : String :=
  "cd " ++ temp_dir ++ " && export SUDO_ASKPASS='" ++ askpass_script ++
    "' && makepkg -si --noconfirm"

/-- One step of the AUR pipeline.  The clone callback (lines 719–731)
routes success with a present PKGBUILD to the review view and every
failure to `show_aur_error`, which only edits labels and buttons —
it removes nothing from disk.  `on_pkgbuild_cancel` removes the temp
directory when it exists and returns to the search view.
`on_pkgbuild_proceed` leads to `run_aur_build`, which spawns the build
in the still-present directory.  `on_process_finished` (lines 887–890)
removes the temp directory when it exists, whatever the outcome. -/
def aur_step (st : AurState) (ev : AurEvent) : AurState × List Effect :=
  match ev with
  | .cloneFinished rc pkgbuildExists _content =>
    if rc == 0 then
      if pkgbuildExists then
        ({ st with view := .pkgbuild_view }, [])
      else
        (st, [Effect.appendLog "PKGBUILD not found in cloned repository."])
    else
      (st, [Effect.appendLog "Clone failed or cancelled."])
  | .cloneRaised msg =>
    (st, [Effect.appendLog ("Error: " ++ msg)])
  | .reviewCancel =>
    if st.dirOnDisk then
      ({ st with dirOnDisk := false, view := .search_view }, [Effect.rmTempDir])
    else
      ({ st with view := .search_view }, [])
  | .reviewProceed temp_dir _pkg_name =>
    ({ st with view := .progress_view },
     ((setup_sudo_env none).map fun w => Effect.writeFile w.path w.content w.mode) ++
       [Effect.spawnShell (aur_build_cmd temp_dir)])
  | .buildFinished success =>
    let base : AurState × List Effect :=
      if st.dirOnDisk then
        ({ st with dirOnDisk := false }, [Effect.rmTempDir])
      else
        (st, [])
    if success then
      ({ base.1 with view := .info_view }, base.2)
    else
      (base.1, base.2)

/-! Startup configuration (`should_show_warning`, lines 102–110). -/

/-- JSON values, with numbers modelled as integers (the flag file holds
a boolean in practice). -/
inductive JVal where
  | jnull
  | jbool (b : Bool)
  | jnum (n : Int)
  | jstr (s : String)
  | jarr (elems : List JVal)
  | jobj (fields : List (String × JVal))
deriving Repr

/-- Python truthiness of a JSON value, as applied by the caller
`if self.should_show_warning():` (line 82). -/
def truthy : JVal → Bool
  | .jnull => false
  | .jbool v => v
  | .jnum n => n != 0
  | .jstr s => s != ""
  | .jarr l => !l.isEmpty
  | .jobj l => !l.isEmpty

/-- Dictionary lookup as `json.loads` builds it: a duplicated key keeps
its last occurrence. -/
def jsonGet (fields : List (String × JVal)) (key : String) : Option JVal :=
  (fields.filter fun kv => kv.1 == key).getLast?.map (fun kv => kv.2)

/-- What the config file on disk amounts to: missing, raising on open
or decode, or decoded to a JSON value. -/
inductive ConfigFile where
  | absent
  | unreadable
  | parsed (v : JVal)

/-- `should_show_warning` (lines 102–110): `True` when the file is
missing; otherwise `config.get("show_warning", True)`, with every
exception — unreadable file, invalid JSON, or `.get` on a decoded
non-object — caught and turned into `True`.  The Python function
returns the raw stored value, not a normalized boolean. -/
def should_show_warning : ConfigFile → JVal
  | .absent => .jbool true
  | .unreadable => .jbool true
  | .parsed v =>
    match v with
    | .jobj fields =>
      match jsonGet fields "show_warning" with
      | some w => w
      | none => .jbool true
    | _ => .jbool true

/-- Whether the first-run warning is shown (line 82): Python truthiness
of the value `should_show_warning` returns. -/
def warning_shown (f : ConfigFile) : Bool :=
  truthy (should_show_warning f)

/-! Theorems. -/

/-- Every successful header parse leaves the description empty: the
dict literal at lines 568–573 always sets `desc` to the empty string. -/
theorem parseHeader_desc (line : String) (p : PkgRec) (h : parseHeader line = some p) :
    p.desc = "" := by
  unfold parseHeader at h
  split at h
  · split at h
    · exact congrArg PkgRec.desc (Option.some.inj h).symm
    · exact congrArg PkgRec.desc (Option.some.inj h).symm
    · exact Option.noConfusion h
  · exact Option.noConfusion h

/-- A non-indented line whose header parse raises stops the loop: the
lines after it contribute nothing, and the output is exactly what the
loop had accumulated (with the pending record flushed), which is also
what parsing the earlier lines alone yields. -/
theorem parseLinesAux_stops_at_bad (bad : String) (rest : List String)
    (h1 : pyStartsWith bad "    " = false) (h2 : parseHeader bad = none) :
    ∀ (pre : List String) (acc : List PkgRec) (cur : Option PkgRec),
      parseLinesAux (pre ++ bad :: rest) acc cur = parseLinesAux pre acc cur := by
  intro pre
  induction pre with
  | nil =>
    intro acc cur
    simp [parseLinesAux, h1, h2]
  | cons l ls ih =>
    intro acc cur
    by_cases hl : pyStartsWith l "    " = true
    · cases cur with
      | some p => simp [parseLinesAux, hl, ih]
      | none => simp [parseLinesAux, hl, ih]
    · cases hph : parseHeader l with
      | none => simp [parseLinesAux, hl, hph]
      | some p => simp [parseLinesAux, hl, hph, ih]

/-- C5 (corrected, counterexample).  The claim predicts that a
malformed header line is skipped and the records of the remaining
well-formed lines are still returned.  On the concrete input below the
line after the malformed one is itself perfectly well-formed, yet its
record is missing from the output: the parse stopped at `badline`. -/
theorem malformed_line_drops_later_records_cex :
    parsePacmanLines ["extra/vim 9.1-1", "badline", "core/sed 4.9-1"] =
      [{ name := "vim", repo := "extra", version := "9.1-1", installed := false,
         desc := "", is_aur := false }] ∧
    parseHeader "core/sed 4.9-1" =
      some { name := "sed", repo := "core", version := "4.9-1", installed := false,
             desc := "", is_aur := false } ∧
    ({ name := "sed", repo := "core", version := "4.9-1", installed := false,
       desc := "", is_aur := false } : PkgRec) ∉
      parsePacmanLines ["extra/vim 9.1-1", "badline", "core/sed 4.9-1"] := by
  refine ⟨rfl, rfl, ?_⟩
  decide

/-- C5 (amended).  A malformed header line does not fail the whole
local search — the surrounding `except` turns the raised exception into
a normal (truncated) result — but it is not skipped either: parsing
stops there, so the output is exactly the parse of the lines before the
malformed one (the record pending at that point is flushed), and every
later line is dropped. -/
theorem parser_aborts_at_malformed_header (pre rest : List String) (bad : String)
    (h1 : pyStartsWith bad "    " = false) (h2 : parseHeader bad = none) :
    parsePacmanLines (pre ++ bad :: rest) = parsePacmanLines pre :=
  parseLinesAux_stops_at_bad bad rest h1 h2 pre [] none

/-- Witness for the amended C5 theorem at a concrete input. -/
theorem parser_aborts_at_malformed_header_witness :
    parsePacmanLines (["extra/vim 9.1-1", "    desc"] ++ "badline" :: ["core/sed 4.9-1"]) =
      parsePacmanLines ["extra/vim 9.1-1", "    desc"] :=
  parser_aborts_at_malformed_header ["extra/vim 9.1-1", "    desc"] ["core/sed 4.9-1"]
    "badline" (by decide) (by decide)

/-- C6 (confirmed).  A well-formed header line followed by one indented
line yields exactly one record whose description is the stripped
indented line; two consecutive well-formed header lines yield two
records, each with the empty description the header constructor
installed. -/
theorem parser_two_shapes (h1 h2 d : String) (p1 p2 : PkgRec)
    (hh1 : pyStartsWith h1 "    " = false) (hp1 : parseHeader h1 = some p1)
    (hh2 : pyStartsWith h2 "    " = false) (hp2 : parseHeader h2 = some p2)
    (hd : pyStartsWith d "    " = true) :
    parsePacmanLines [h1, d] = [{ p1 with desc := pyStrip d }] ∧
    parsePacmanLines [h1, h2] = [p1, p2] ∧ p1.desc = "" ∧ p2.desc = "" := by
  refine ⟨?_, ?_, parseHeader_desc h1 p1 hp1, parseHeader_desc h2 p2 hp2⟩
  · simp [parsePacmanLines, parseLinesAux, hh1, hp1, hd]
  · simp [parsePacmanLines, parseLinesAux, hh1, hp1, hh2, hp2]

/-- Witness for the C6 theorem at concrete input lines. -/
theorem parser_two_shapes_witness :
    parsePacmanLines ["extra/vim 9.1-1", "    Vi improved"] =
      [{ name := "vim", repo := "extra", version := "9.1-1", installed := false,
         desc := "Vi improved", is_aur := false }] ∧
    parsePacmanLines ["extra/vim 9.1-1", "core/sed 4.9-1"] =
      [{ name := "vim", repo := "extra", version := "9.1-1", installed := false,
         desc := "", is_aur := false },
       { name := "sed", repo := "core", version := "4.9-1", installed := false,
         desc := "", is_aur := false }] ∧
    ({ name := "vim", repo := "extra", version := "9.1-1", installed := false,
       desc := "", is_aur := false } : PkgRec).desc = "" ∧
    ({ name := "sed", repo := "core", version := "4.9-1", installed := false,
       desc := "", is_aur := false } : PkgRec).desc = "" :=
  parser_two_shapes "extra/vim 9.1-1" "core/sed 4.9-1" "    Vi improved"
    { name := "vim", repo := "extra", version := "9.1-1", installed := false,
      desc := "", is_aur := false }
    { name := "sed", repo := "core", version := "4.9-1", installed := false,
      desc := "", is_aur := false }
    (by decide) (by decide) (by decide) (by decide) (by decide)

/-- C3 (confirmed).  The `success` flag `execute_shell` reports is true
exactly when the child process ran to completion with exit code 0: any
nonzero exit code — including the nonzero codes a SIGINT-interrupted
child exits with — and any exception while spawning or reading the
process yield false. -/
theorem execute_shell_success_iff_exit_zero (outcome : ProcOutcome) :
    (execute_shell outcome).2 = true ↔
      ∃ ls, outcome = ProcOutcome.completed 0 ls := by
  cases outcome with
  | completed rc ls => simp [execute_shell]
  | raised ls msg => simp [execute_shell]

/-- C4 (code bug).  On the fetch-failure exits of the AUR pipeline —
clone exiting nonzero, or the PKGBUILD missing after a clean clone —
the handler `show_aur_error` only edits the log and buttons: the
temporary clone directory stays on disk and no removal is performed.
The review-cancel and build-completion exits do remove it. -/
theorem aur_fetch_failure_leaves_temp_dir :
    (aur_step { dirOnDisk := true, view := .progress_view }
        (.cloneFinished 1 false "")).1.dirOnDisk = true ∧
    Effect.rmTempDir ∉
      (aur_step { dirOnDisk := true, view := .progress_view }
        (.cloneFinished 1 false "")).2 ∧
    (aur_step { dirOnDisk := true, view := .progress_view }
        (.cloneFinished 0 false "")).1.dirOnDisk = true ∧
    (aur_step { dirOnDisk := true, view := .pkgbuild_view }
        .reviewCancel).1.dirOnDisk = false ∧
    (aur_step { dirOnDisk := true, view := .progress_view }
        (.buildFinished false)).1.dirOnDisk = false ∧
    (aur_step { dirOnDisk := true, view := .progress_view }
        (.buildFinished true)).1.dirOnDisk = false := by
  decide

/-- C8 (corrected, counterexample).  The claim says cancellation sends
the interrupt to the child process group; `on_cancel_clicked` calls
`send_signal` on the `Popen` handle, which addresses only the single
child process — no group signal is ever emitted. -/
theorem cancel_signal_not_to_group_cex :
    Effect.sendSignal .sigint .toProcess ∈ on_cancel_clicked (some 0) ∧
    Effect.sendSignal .sigint .toGroup ∉ on_cancel_clicked (some 0) := by
  decide

/-- C8 (amended).  With a live child handle, cancellation appends the
cancellation log line and sends exactly one signal: SIGINT to the child
process itself (not its process group); no SIGKILL or SIGTERM is ever
sent, and with no handle nothing happens at all. -/
theorem cancel_sends_sigint_to_process_only (pid : Nat) :
    on_cancel_clicked (some pid) =
      [Effect.appendLog cancelLogText, Effect.sendSignal .sigint .toProcess] ∧
    (∀ tgt : SigTarget,
      Effect.sendSignal .sigkill tgt ∉ on_cancel_clicked (some pid) ∧
      Effect.sendSignal .sigterm tgt ∉ on_cancel_clicked (some pid)) ∧
    on_cancel_clicked none = [] := by
  refine ⟨rfl, ?_, rfl⟩
  intro tgt
  simp [on_cancel_clicked]

/-- C10 (corrected, counterexample).  The claim says the warning is
suppressed only when `show_warning` is exactly `false`; a config file
decoding to a JSON object with `show_warning` equal to the number 0
also suppresses it, because the raw stored value is used in a Python
boolean context. -/
theorem warning_exact_false_cex :
    warning_shown (.parsed (.jobj [("show_warning", .jnum 0)])) = false ∧
    JVal.jnum 0 ≠ JVal.jbool false := by
  exact ⟨rfl, fun h => nomatch h⟩

/-- C10 (amended).  The warning is suppressed exactly when the config
file decodes to a JSON object carrying a `show_warning` key whose value
is falsy under Python truthiness; a missing file, an unreadable or
invalid file, a non-object document, or a missing key all show the
warning. -/
theorem warning_shown_iff_falsy (f : ConfigFile) :
    warning_shown f = false ↔
      ∃ fields w, f = ConfigFile.parsed (JVal.jobj fields) ∧
        jsonGet fields "show_warning" = some w ∧ truthy w = false := by
  cases f with
  | absent => simp [warning_shown, should_show_warning, truthy]
  | unreadable => simp [warning_shown, should_show_warning, truthy]
  | parsed v =>
    cases v with
    | jnull => simp [warning_shown, should_show_warning, truthy]
    | jbool b => simp [warning_shown, should_show_warning, truthy]
    | jnum n => simp [warning_shown, should_show_warning, truthy]
    | jstr s => simp [warning_shown, should_show_warning, truthy]
    | jarr l => simp [warning_shown, should_show_warning, truthy]
    | jobj fields =>
      cases hw : jsonGet fields "show_warning" with
      | none => simp [warning_shown, should_show_warning, hw, truthy]
      | some w => simp [warning_shown, should_show_warning, hw]

/-- C1 (confirmed).  A search thread that publishes its result set
observed its own id in `search_counter` at every checkpoint it reached
— on entry, after the local lookup when the lookup returned, after the
remote lookup when AUR search was on and the request returned, and at
the publish point.  Since `on_search_changed_issue` tags each
invocation with the freshly incremented counter, ids are issued
strictly increasing and the counter always holds the latest issued id:
a published result set therefore carries the latest issued id at the
moment of publication, and a search that is stale at any reached
checkpoint publishes nothing (contrapositive). -/
theorem search_publishes_only_latest (search_id : Nat) (query : String) (env : SearchEnv)
    (h : (perform_search search_id query env).isSome = true) :
    search_id = env.cPre ∧ search_id = env.cPublish ∧
      (env.localOut.isSome = true → search_id = env.cPostLocal) ∧
      (env.aurEnabled = true → env.remote.isSome = true → search_id = env.cPostRemote) := by
  rcases env with ⟨c1, lo, c2, ae, re, c3, c4⟩
  simp only [perform_search] at h
  rcases lo with _ | ⟨rc, out⟩ <;> rcases ae with _ | _ <;> rcases re with _ | data <;>
    simp_all [bne_iff_ne, beq_iff_eq] <;> split_ifs at h <;> simp_all

/-- Witness for the C1 theorem at a concrete publishing run. -/
theorem search_publishes_only_latest_witness :
    5 = searchEnvW.cPre ∧ 5 = searchEnvW.cPublish ∧
      (searchEnvW.localOut.isSome = true → 5 = searchEnvW.cPostLocal) ∧
      (searchEnvW.aurEnabled = true → searchEnvW.remote.isSome = true →
        5 = searchEnvW.cPostRemote) :=
  search_publishes_only_latest 5 "sed" searchEnvW (by decide)

/-- C2 (corrected, counterexample).  From a state in which a
transaction is already running (`runningState`: `process_in_progress`
set and a live child handle), submitting a remove intent is not
rejected: `initiate_remove` goes straight to `run_transaction`, which
spawns another child process. -/
theorem second_intent_not_rejected_cex :
    runningState.process_in_progress = true ∧
    runningState.current_process = some 1 ∧
    spawnCount (initiate_remove runningState "vim").2 = 1 :=
  ⟨rfl, rfl, rfl⟩

/-- C2 (amended).  Neither `initiate_install` nor `initiate_remove`
nor `run_transaction` consults `process_in_progress`: with a cached
credential, submitting an intent always spawns exactly one new child
process, and the effects are identical whether or not a transaction is
already running.  At-most-one-child is therefore not enforced by these
methods; it rests solely on the UI swapping the search view (and its
install and remove buttons) out for the progress view while a
transaction runs. -/
theorem intent_spawns_regardless_of_running (st : SupState)
    (package_name temp_dir : String) (pkg : PkgRec)
    (h : pwTruthy st.user_password = true) (haur : pkg.is_aur = false) :
    spawnCount (initiate_remove st package_name).2 = 1 ∧
    (initiate_remove st package_name).1.process_in_progress = true ∧
    (initiate_remove st package_name).2 =
      (initiate_remove { st with process_in_progress := true } package_name).2 ∧
    spawnCount (initiate_install st pkg temp_dir).2 = 1 := by
  refine ⟨?_, ?_, ?_, ?_⟩ <;>
    simp [initiate_remove, initiate_install, run_transaction, setup_sudo_env,
      spawnCount, h, haur]

/-- Witness for the amended C2 theorem at a running state. -/
theorem intent_spawns_regardless_of_running_witness :
    spawnCount (initiate_remove runningState "tmux").2 = 1 ∧
    (initiate_remove runningState "tmux").1.process_in_progress = true ∧
    (initiate_remove runningState "tmux").2 =
      (initiate_remove { runningState with process_in_progress := true } "tmux").2 ∧
    spawnCount (initiate_install runningState pkgW "/tmp/d").2 = 1 :=
  intent_spawns_regardless_of_running runningState "tmux" "/tmp/d" pkgW (by decide) rfl

/-- C7 (confirmed).  `setup_sudo_env` writes the same two files with
mode `0o700` whatever the session credential is — the askpass helper
holds only the fixed script that echoes the `LINPAMA_SUDO_PW`
environment variable — and `execute_shell` passes a truthy cached
credential to the child solely by binding that variable in the child
environment. -/
theorem sudo_helpers_owner_only_no_secret (pw1 pw2 : Option String)
    (base : List (String × String)) (p : String) (hp : p ≠ "") :
    setup_sudo_env pw1 = setup_sudo_env pw2 ∧
    (setup_sudo_env pw1).map FileWrite.mode = [0o700, 0o700] ∧
    (setup_sudo_env pw1).map FileWrite.content = [askpass_content, sudo_wrapper_content] ∧
    sudoEnvVarName = "LINPAMA_SUDO_PW" ∧
    askpass_content = "#!/bin/sh\necho \"$LINPAMA_SUDO_PW\"\n" ∧
    execute_shell_env base (some p) = envSet base sudoEnvVarName p := by
  refine ⟨rfl, rfl, rfl, by decide, by decide, ?_⟩
  simp [execute_shell_env, bne_iff_ne, hp]

/-- Witness for the C7 theorem at concrete credentials. -/
theorem sudo_helpers_owner_only_no_secret_witness :
    setup_sudo_env (some "hunter2") = setup_sudo_env none ∧
    (setup_sudo_env (some "hunter2")).map FileWrite.mode = [0o700, 0o700] ∧
    (setup_sudo_env (some "hunter2")).map FileWrite.content =
      [askpass_content, sudo_wrapper_content] ∧
    sudoEnvVarName = "LINPAMA_SUDO_PW" ∧
    askpass_content = "#!/bin/sh\necho \"$LINPAMA_SUDO_PW\"\n" ∧
    execute_shell_env [] (some "hunter2") = envSet [] sudoEnvVarName "hunter2" :=
  sudo_helpers_owner_only_no_secret (some "hunter2") none [] "hunter2" (by decide)

/-- A single credential step from a cached, non-pending session keeps
the cached value, keeps the dialog closed, and never opens a prompt. -/
theorem cred_step_keeps (st : CredState) (ev : CredEvent) (p : String)
    (hp : st.user_password = some p) (hne : (p != "") = true) (hpend : st.pending = false) :
    (cred_step st ev).1.user_password = some p ∧ (cred_step st ev).1.pending = false ∧
      CredAct.promptShown ∉ (cred_step st ev).2 := by
  cases ev with
  | initiate => simp [cred_step, pwTruthy, hp, hne, hpend]
  | respUnlock pwd => simp [cred_step, hpend, hp]
  | respCancel => simp [cred_step, hpend, hp]

/-- Along any event sequence starting from a cached, non-pending
session, the cached credential survives unchanged and no prompt is
ever shown. -/
theorem cred_run_no_prompt (evs : List CredEvent) :
    ∀ (st : CredState) (p : String), st.user_password = some p → (p != "") = true →
      st.pending = false →
      (cred_run st evs).1.user_password = some p ∧
        CredAct.promptShown ∉ (cred_run st evs).2 := by
  induction evs with
  | nil =>
    intro st p hp hne hpend
    simp [cred_run, hp]
  | cons ev evs ih =>
    intro st p hp hne hpend
    have h1 := cred_step_keeps st ev p hp hne hpend
    obtain ⟨hA, hB⟩ := ih (cred_step st ev).1 p h1.1 hne h1.2.1
    simp only [cred_run]
    refine ⟨hA, ?_⟩
    simp only [List.mem_append, not_or]
    exact ⟨h1.2.2, hB⟩

/-- C9 (confirmed).  Once a credential is cached, an intent runs the
transaction with the cached value immediately, and along any further
event sequence no prompt is ever shown and the cached value never
changes — so the interactive prompt happens at most once per session.
Cancelling the dialog, or submitting an empty entry, caches nothing and
runs nothing: the handler merely closes the dialog. -/
theorem credential_prompted_at_most_once (st st2 : CredState) (p : String)
    (evs : List CredEvent)
    (hp : st.user_password = some p) (hne : (p != "") = true) (hpend : st.pending = false) :
    (cred_step st CredEvent.initiate = (st, [CredAct.ranTransaction p]) ∧
     (cred_run st evs).1.user_password = some p ∧
     CredAct.promptShown ∉ (cred_run st evs).2) ∧
    ((cred_step st2 CredEvent.respCancel).1.user_password = st2.user_password ∧
     (cred_step st2 CredEvent.respCancel).2 = [] ∧
     (cred_step st2 (CredEvent.respUnlock "")).1.user_password = st2.user_password ∧
     (cred_step st2 (CredEvent.respUnlock "")).2 = []) := by
  have hrun := cred_run_no_prompt evs st p hp hne hpend
  refine ⟨⟨?_, hrun.1, hrun.2⟩, ?_⟩
  · simp [cred_step, pwTruthy, hp, hne]
  · by_cases h2 : st2.pending = true
    · simp [cred_step, h2]
    · simp [cred_step, h2]

/-- Witness for the C9 theorem: a session with a cached credential and
a pending-dialog session, driven through two further intents. -/
theorem credential_prompted_at_most_once_witness :
    (cred_step { user_password := some "hunter2", pending := false } CredEvent.initiate =
      ({ user_password := some "hunter2", pending := false },
        [CredAct.ranTransaction "hunter2"]) ∧
     (cred_run { user_password := some "hunter2", pending := false }
        [CredEvent.initiate, CredEvent.initiate]).1.user_password = some "hunter2" ∧
     CredAct.promptShown ∉ (cred_run { user_password := some "hunter2", pending := false }
        [CredEvent.initiate, CredEvent.initiate]).2) ∧
    ((cred_step { user_password := none, pending := true }
        CredEvent.respCancel).1.user_password = none ∧
     (cred_step { user_password := none, pending := true } CredEvent.respCancel).2 = [] ∧
     (cred_step { user_password := none, pending := true }
        (CredEvent.respUnlock "")).1.user_password = none ∧
     (cred_step { user_password := none, pending := true } (CredEvent.respUnlock "")).2 = []) :=
  credential_prompted_at_most_once
    { user_password := some "hunter2", pending := false }
    { user_password := none, pending := true }
    "hunter2" [CredEvent.initiate, CredEvent.initiate] rfl (by decide) rfl

end Linpama
